import Mathlib

/-!
Shallow embedding of the ChannelPacker texture-set resolution and composition
engine (src/channel_packer.py, src/utils.py, src/settings.py,
src/backend/image_lib.py, src/backend/io_backend.py,
src/backend/texture_classes.py), together with theorems settling the
frozen claims about its specification.

Machine integers are modelled as `Nat` (all pixel values and resolutions in
the source are non-negative Python ints); fallible code returns
`Option`/`Except`; Python dicts keyed by strings are association lists with
first-match lookup and in-place update, matching insertion-ordered Python
dict semantics.
-/

namespace ChannelPacker

/-! ### Data model (src/backend/texture_classes.py) -/

/-- `TextureMapData` dataclass: path, resolution (None when the image header
could not be read), declared size suffix, original filename. -/
structure TextureMapData where
  file_path : String
  resolution : Option (Nat × Nat)
  suffix : String
  filename : String
deriving Repr, DecidableEq

/-- `TextureMapCollection = Dict[str, TextureMapData]`: insertion-ordered
association list from texture-type name to its map data. -/
abbrev TextureMapCollection := List (String × TextureMapData)

/-- `ChannelMapping` TypedDict: optional source-reference string per output
channel slot.  `none` and `some ""` are both falsy in the Python source. -/
structure ChannelMapping where
  R : Option String
  G : Option String
  B : Option String
  A : Option String
deriving Repr, DecidableEq

/-- `PackingMode` TypedDict. -/
structure PackingMode where
  mode_name : String
  custom_suffix : String
  channels : ChannelMapping
deriving Repr, DecidableEq

/-- `TextureTypeConfig` TypedDict: alias suffixes plus
`default : (kind, fill)` where kind is `"G"` or `"RGB"`. -/
structure TextureTypeConfig where
  suffixes : List String
  default : String × Nat
deriving Repr, DecidableEq

/-! ### Association-list helpers (Python dict semantics) -/

/-- `d.get(k)`: first value bound to `k`. -/
def assocLookup {α : Type} (l : List (String × α)) (k : String) : Option α :=
  (l.find? (fun kv => kv.1 = k)).map (·.2)

/-- `d[k] = v`: replace the first binding of `k` in place, else append. -/
def assocUpdate {α : Type} (l : List (String × α)) (k : String) (v : α) :
    List (String × α) :=
  match l with
  | [] => [(k, v)]
  | kv :: rest =>
      if kv.1 = k then (k, v) :: rest else kv :: assocUpdate rest k v

/-- Python `str.lower()` (ASCII; all identifiers in the source are ASCII).
(`String.toLower` is extensionally the same but does not reduce in the
kernel, so executable forms are used throughout.) -/
def pyLower (s : String) : String := ⟨s.data.map Char.toLower⟩

/-- Python `str.upper()` (ASCII). -/
def pyUpper (s : String) : String := ⟨s.data.map Char.toUpper⟩

/-- Python `str.strip()`: drop leading and trailing whitespace. -/
def pyStrip (s : String) : String :=
  ⟨((s.data.dropWhile Char.isWhitespace).reverse.dropWhile
      Char.isWhitespace).reverse⟩

/-- Python `str.startswith(prefix)`. -/
def pyStartsWith (s pre : String) : Bool :=
  s.data.take pre.data.length == pre.data

/-- `next((c for name, c in d.items() if name.lower() == k), None)`:
case-insensitive first-match lookup used throughout the source. -/
def assocLookupCI {α : Type} (l : List (String × α)) (k : String) : Option α :=
  (l.find? (fun kv => pyLower kv.1 = k)).map (·.2)

/-! ### settings.py constants -/

/-- `TEXTURE_CONFIG` from src/settings.py, verbatim. -/
def TEXTURE_CONFIG : List (String × TextureTypeConfig) :=
  [("AO", ⟨["ambientocclusion", "occlusion", "ambient", "ao"], ("G", 255)⟩),
   ("Roughness", ⟨["roughness", "roughnes", "rough", "r"], ("G", 128)⟩),
   ("Metalness", ⟨["metalness", "metalnes", "metallic", "metal", "m"], ("G", 0)⟩),
   ("Height", ⟨["displacement", "height", "disp", "d", "h"], ("G", 0)⟩),
   ("Mask", ⟨["opacity", "alpha", "mask"], ("G", 255)⟩),
   ("Translucency", ⟨["translucency", "translucent", "trans", "t"], ("G", 0)⟩),
   ("Specular", ⟨["specular", "spec", "s"], ("G", 128)⟩),
   ("Normal", ⟨["normal_dx", "normal_gl", "normaldx", "normalgl", "normalgl",
                "normal", "nor_dx", "nor_gl", "norm", "nrm", "n"], ("RGB", 128)⟩),
   ("BendNormal", ⟨["bend_normal", "bendnormal", "bn"], ("RGB", 128)⟩),
   ("Bump", ⟨["bump", "bp"], ("G", 128)⟩),
   ("Albedo", ⟨["basecolor", "diffuse", "albedo", "color", "diff", "base",
                "a", "b"], ("RGB", 128)⟩),
   ("SSS", ⟨["subsurface", "sss"], ("G", 0)⟩),
   ("Emissive", ⟨["emissive", "emission", "emit", "glow"], ("RGB", 0)⟩),
   ("Glossiness", ⟨["glossiness", "gloss", "gl"], ("G", 128)⟩)]

/-! ### utils.py -/

/-- `is_power_of_two(n)`: `(n & (n - 1) == 0) and n != 0`. -/
def is_power_of_two (n : Nat) : Bool :=
  (n &&& (n - 1) == 0) && n != 0

/-- `resolution_to_suffix(size)`: bucket `max(size)` by inclusive thresholds,
or `f"{width}px"` past the last threshold. -/
def resolution_to_suffix (size : Nat × Nat) : String :=
  let width := max size.1 size.2
  match [((512 : Nat), "512"), (1024, "1K"), (2048, "2K"),
         (4096, "4K"), (8192, "8K")].find? (fun t => width ≤ t.1) with
  | some t => t.2
  | none => toString width ++ "px"

/-! ### Mode selection & resolution (src/channel_packer.py) -/

/-- Pixel area of a `(w, h)` resolution, the `key=lambda r: r[0] * r[1]`
used by the Python `min`/`max` calls. -/
def area (r : Nat × Nat) : Nat := r.1 * r.2

/-- Python `min(resolutions, key=area)`: the first element of minimal area
(`min` only replaces its candidate on a strictly smaller key). -/
def minByArea (rs : List (Nat × Nat)) : Nat × Nat :=
  match rs with
  | [] => (0, 0)
  | r :: rest => rest.foldl (fun m x => if area x < area m then x else m) r

/-- Python `max(resolutions, key=area)`: the first element of maximal area. -/
def maxByArea (rs : List (Nat × Nat)) : Nat × Nat :=
  match rs with
  | [] => (0, 0)
  | r :: rest => rest.foldl (fun m x => if area m < area x then x else m) r

/-- `len(set(texture_resolutions)) == 1`: all collected resolutions equal
(and at least one present). -/
def allSameResolution (rs : List (Nat × Nat)) : Bool :=
  match rs with
  | [] => false
  | r :: rest => rest.all (fun x => x == r)

/-- `_check_textures_and_pick_target_resolution`: collect the readable
resolutions of the mode's maps; fail with `(false, (0,0))` if any is
unreadable; fail with `(false, min)` if the area-minimum is not
power-of-two in either dimension; otherwise return the shared resolution,
or the area-max under strategy `"up"`, else the area-min. -/
def check_textures_and_pick_target_resolution
    (texture_maps_for_mode : TextureMapCollection)
    (resize_strategy : String) : Bool × (Nat × Nat) :=
  let texture_resolutions :=
    texture_maps_for_mode.filterMap (fun t => t.2.resolution)
  let texture_count := texture_maps_for_mode.length
  if texture_resolutions.isEmpty ∨ texture_resolutions.length < texture_count
  then (false, (0, 0))
  else
    let min_resolution := minByArea texture_resolutions
    let max_resolution := maxByArea texture_resolutions
    if ¬ is_power_of_two min_resolution.1 ∨ ¬ is_power_of_two min_resolution.2
    then (false, min_resolution)
    else if allSameResolution texture_resolutions then (true, min_resolution)
    else if resize_strategy = "up" then (true, max_resolution)
    else (true, min_resolution)

/-- The resize-strategy fragment of `_validate_config` (lines 334-339):
the function only computes whether a warning is logged — the lowered copy
is a local rebinding, so the configured strategy value reaches the
resolver unchanged.  Returns `(value used afterwards, warning logged)`. -/
def validate_config_resize_strategy (resize_strategy : String) :
    String × Bool :=
  let lowered := pyLower resize_strategy
  (resize_strategy, ¬ (lowered = "up" ∨ lowered = "down"))

/-- `_strip_channel_specifier(name)`: drop a trailing `[._][rgba]`
(case-insensitive) channel specifier and lowercase the result. -/
def strip_channel_specifier (name : String) : String :=
  match name.data.reverse with
  | c :: sep :: rest =>
      if (sep = '.' ∨ sep = '_') ∧
          c ∈ ['r', 'g', 'b', 'a', 'R', 'G', 'B', 'A'] then
        pyLower ⟨rest.reverse⟩
      else pyLower name
  | _ => pyLower name

/-- `channels.values()` in slot order R, G, B, A. -/
def channelValues (channels : ChannelMapping) : List (Option String) :=
  [channels.R, channels.G, channels.B, channels.A]

/-- `_required_base_texture_map_types_for_mode(mode)`: the set of stripped,
lowercased base types over the truthy channel values. -/
def required_base_texture_map_types_for_mode (mode : PackingMode) :
    Finset String :=
  ((((channelValues mode.channels).filterMap id).filter
      (fun v => v != "")).map
    (fun channel_value => pyLower (strip_channel_specifier channel_value))).toFinset

/-- `_get_available_texture_maps_for_packing(mode, available_maps)`: walk
the slots in order R, G, B, A, skip falsy values and already-seen base
types, and take the set's entry for each base type present.  (The
`isinstance(..., list)` arm of the source is dead: `_build_texture_sets`
stores a single `TextureMapData` per type, never a list, so the stored
entry is used as-is.) -/
def get_available_texture_maps_for_packing (mode : PackingMode)
    (available_maps : TextureMapCollection) : TextureMapCollection :=
  (((channelValues mode.channels).foldl
    (fun (acc : TextureMapCollection × List String) channelValue =>
      match channelValue with
      | none => acc
      | some channel =>
          if channel = "" then acc
          else
            let base_texture_map_type := strip_channel_specifier channel
            if base_texture_map_type ∈ acc.2 then acc
            else
              match assocLookup available_maps base_texture_map_type with
              | some texture_maps_for_type =>
                  (acc.1 ++ [(base_texture_map_type, texture_maps_for_type)],
                   acc.2 ++ [base_texture_map_type])
              | none => acc)
    ([], []))).1

/-- The qualification decision of `_get_valid_modes_for_set` for one
(mode, set) pair: the required/present cardinality rule, then the ≥2
check on the narrowed map collection. -/
def get_valid_mode_for_set (mode : PackingMode)
    (available_maps : TextureMapCollection) : Bool :=
  let required_texture_types := required_base_texture_map_types_for_mode mode
  let available_texture_types := (available_maps.map (·.1)).toFinset
  let present_texture_types := required_texture_types ∩ available_texture_types
  if (required_texture_types.card ≤ 2 ∧
        present_texture_types ≠ required_texture_types) ∨
      (required_texture_types.card > 2 ∧ present_texture_types.card < 2) then
    false
  else
    let texture_maps_for_mode :=
      get_available_texture_maps_for_packing mode available_maps
    if texture_maps_for_mode.length < 2 then false
    else true

/-! ### Packing-mode normalizer (src/channel_packer.py `_validate_packing_modes`) -/

/-- ASCII letter or digit, the character class `[a-z0-9]` under
`re.IGNORECASE`. -/
def isAsciiAlnum (c : Char) : Bool := c.isAlpha || c.isDigit

/-- `re.match(r"([a-z0-9]+)([._]?[rgb]?)$", s, re.IGNORECASE)`: the whole
string is a greedy non-empty alphanumeric group followed by an optional
separator and optional component letter.  Returns `(group1, group2)`.
(The greedy first group absorbs a bare trailing letter, so `group2` is
either empty, a lone separator, or separator-plus-letter.) -/
def parse_channel_ref (s : String) : Option (String × String) :=
  let cs := s.data
  if cs ≠ [] ∧ cs.all isAsciiAlnum then
    some (s, "")
  else
    match cs.reverse with
    | c :: sep :: rest =>
        if (sep = '.' ∨ sep = '_') ∧ c ∈ ['r', 'g', 'b', 'R', 'G', 'B'] ∧
            rest ≠ [] ∧ rest.all isAsciiAlnum then
          some (⟨rest.reverse⟩, ⟨[sep, c]⟩)
        else if (c = '.' ∨ c = '_') ∧
            (sep :: rest).all isAsciiAlnum then
          some (⟨(sep :: rest).reverse⟩, ⟨[c]⟩)
        else none
    | _ => none

/-- The per-slot body of `_validate_packing_modes` (lines 405-457) for a
truthy `channel_value`: parse the source reference, resolve the texture
type case-insensitively, then normalize.  `Except.error` models the
`sys.exit(1)` fatal configuration errors. -/
def validate_packing_mode_channel (channel : String)
    (channel_value : String) : Except String String :=
  match parse_channel_ref (pyStrip channel_value) with
  | none => .error ("invalid syntax in channel " ++ channel)
  | some (group1, group2) =>
      let texture_name := pyLower group1
      let channel_component_specifier := pyLower group2
      match assocLookupCI TEXTURE_CONFIG texture_name with
      | none => .error ("unknown texture type set in " ++ channel)
      | some texture_config =>
          let texture_type := texture_config.default.1
          if pyUpper texture_type = "RGB" then
            if channel_component_specifier = "" then
              if channel = "R" ∨ channel = "G" ∨ channel = "B" then
                .ok (texture_name ++ "." ++ pyLower channel)
              else if channel = "A" then
                .error ("Alpha is assigned a full RGB map without explicit channel")
              else .ok channel_value
            else .ok channel_value
          else if pyUpper texture_type = "G" then
            .ok (if channel_component_specifier ≠ "" then texture_name
                 else channel_value)
          else .ok channel_value

/-! ### Image model (src/backend/image_lib.py)

A PIL image handle is modelled as its mode string, pixel size, and bands
(named channels with flattened 8/16-bit pixel data as `List Nat`).
Resampling (`PIL.Image.resize`) is performed by the external imaging
collaborator; the embedding records the new size and keeps the band data,
since no claim references resampled pixel values. -/

structure Image where
  mode : String
  size : Nat × Nat
  bands : List (String × List Nat)
deriving Repr, DecidableEq

/-- `get_image_mode(image)`. -/
def get_image_mode (image : Image) : String := image.mode

/-- `get_size(image)`. -/
def get_size (image : Image) : Nat × Nat := image.size

/-- `get_image_channels(image)`: `image.getbands()`. -/
def get_image_channels (image : Image) : List String :=
  image.bands.map (·.1)

/-- Data of one named band. -/
def lookupBand (image : Image) (ch : String) : Option (List Nat) :=
  assocLookup image.bands ch

/-- `get_channel(image, ch)`: `image.getchannel(ch.upper())`.  PIL raises
on a missing band; the source only calls this after checking membership,
so the unreachable missing case carries empty data. -/
def get_channel (image : Image) (ch : String) : Image :=
  ⟨"L", image.size, [("L", (lookupBand image (pyUpper ch)).getD [])]⟩

/-- `new_image_grayscale(size, fill)`: `PIL.new("L", size, fill)`. -/
def new_image_grayscale (size : Nat × Nat) (fill : Nat) : Image :=
  ⟨"L", size, [("L", List.replicate (size.1 * size.2) fill)]⟩

/-- `resize(image, size)` (bilinear; resampled values external, see above). -/
def resize (image : Image) (size : Nat × Nat) : Image :=
  { image with size := size }

/-- `is_grayscale(image)`: `mode in ("L", "LA") or mode == "I" or
mode.startswith("I;16")`. -/
def is_grayscale (image : Image) : Bool :=
  (image.mode == "L" || image.mode == "LA") || image.mode == "I" ||
    pyStartsWith image.mode "I;16"

/-- `are_channels_equal(image, c1, c2)`:
`ImageChops.difference(ch1, ch2).getbbox() is None` holds exactly when the
two bands agree pixelwise; a missing band raises and the `except` arm
returns `False`. -/
def are_channels_equal (image : Image) (input_channel1 input_channel2 : String) :
    Bool :=
  match lookupBand image (pyUpper input_channel1),
        lookupBand image (pyUpper input_channel2) with
  | some channel1, some channel2 => channel1 == channel2
  | _, _ => false

/-- Per-band `(min, max)` of `image.getextrema()`. -/
def bandExtrema (l : List Nat) : Nat × Nat :=
  match l with
  | [] => (0, 0)
  | x :: xs => (xs.foldl Nat.min x, xs.foldl Nat.max x)

/-- `is_rgb_grayscale(image)`: pre-validate that the first two bands have
the same extrema, then compare the R and G bands pixelwise. -/
def is_rgb_grayscale (image : Image) : Bool :=
  let ext := image.bands.map (fun b => bandExtrema b.2)
  match ext with
  | e0 :: e1 :: _ =>
      if e0 ≠ e1 then false else are_channels_equal image "R" "G"
  | _ => false

/-- `_16_to_8bit` per-pixel step: `(v >> 8) & 0xFF`. -/
def sixteen_to_8bit_pixel (v : Nat) : Nat := (v >>> 8) &&& 0xFF

/-- PIL's ITU-R 601-2 luma transform used by `image.convert("L")`
(`L = R * 299/1000 + G * 587/1000 + B * 114/1000`, fixed-point). -/
def luma_pixel (r g b : Nat) : Nat :=
  (r * 19595 + g * 38470 + b * 7471 + 32768) >>> 16

/-- Luma transform over zipped RGB band data. -/
def luma_list (r g b : List Nat) : List Nat :=
  (r.zip (g.zip b)).map (fun t => luma_pixel t.1 t.2.1 t.2.2)

/-- `image.convert("L")` of the external collaborator: luma reduction for
RGB/RGBA bands, else pass the L band through. -/
def pil_convert_L (image : Image) : Image :=
  match lookupBand image "R", lookupBand image "G", lookupBand image "B" with
  | some r, some g, some b => ⟨"L", image.size, [("L", luma_list r g b)]⟩
  | _, _, _ => ⟨"L", image.size, [("L", (lookupBand image "L").getD [])]⟩

/-- The `img16` normalization of `_16_to_8bit`: mode `"I"` (32-bit) is
converted to `"I;16"` (PIL clamps into the 16-bit range); the `"I;16"`
family already holds 16-bit data (byte order immaterial for `List Nat`). -/
def normalize_to_16bit (image : Image) : List Nat :=
  if image.mode = "I" then
    ((lookupBand image "I").getD []).map (fun v => min v 65535)
  else (lookupBand image "I").getD []

/-- `_16_to_8bit(image)`: scale the 16-bit range down to 8-bit via the
high byte; a plain 8-bit image falls back to `convert("L")`. -/
def sixteen_to_8bit_image (image : Image) : Image :=
  if image.mode = "I" ∨ image.mode = "I;16" ∨ image.mode = "I;16L" ∨
      image.mode = "I;16B" then
    ⟨"L", image.size, [("L", (normalize_to_16bit image).map sixteen_to_8bit_pixel)]⟩
  else pil_convert_L image

/-- `convert_to_grayscale(image)`. -/
def convert_to_grayscale (image : Image) : Image :=
  if image.mode = "L" then image
  else if image.mode = "I" ∨ image.mode = "I;16" ∨ image.mode = "I;16L" ∨
      image.mode = "I;16B" then sixteen_to_8bit_image image
  else pil_convert_L image

/-! ### Channel extraction (src/channel_packer.py `_extract_channel`) -/

/-- `re.search(r"[._]([rgba])$", texture_map_type, re.IGNORECASE)` followed
by `.upper()`: the uppercased explicit component letter, or `""`. -/
def match_channel_suffix (texture_map_type : String) : String :=
  match texture_map_type.data.reverse with
  | c :: sep :: _ =>
      if (sep = '.' ∨ sep = '_') ∧
          c ∈ ['r', 'g', 'b', 'a', 'R', 'G', 'B', 'A'] then
        pyUpper ⟨[c]⟩
      else ""
  | _ => ""

/-- `_extract_channel(image, texture_map_type)`: grayscale passes through
(16-bit converted down); for RGB/RGBA, an explicit valid component is
extracted; else a single-channel-kind type whose R and G channels are
pixel-identical yields its R channel; else a luma conversion; other modes
yield `None`. -/
def extract_channel (image : Option Image) (texture_map_type : String) :
    Option Image :=
  match image with
  | none => none
  | some image =>
      let image_mode := get_image_mode image
      if is_grayscale image then some (convert_to_grayscale image)
      else if image_mode = "RGB" ∨ image_mode = "RGBA" then
        let requested_channel := match_channel_suffix texture_map_type
        let image_channels := get_image_channels image
        if requested_channel ≠ "" ∧ requested_channel ∈ image_channels then
          some (get_channel image requested_channel)
        else
          let base_texture_type :=
            pyLower ⟨texture_map_type.data.takeWhile (fun c => c ≠ '.')⟩
          let is_texture_grayscale : Bool :=
            match assocLookupCI TEXTURE_CONFIG base_texture_type with
            | some config => pyUpper config.default.1 == "G"
            | none => false
          if is_texture_grayscale ∧ (image_mode = "RGB" ∨ image_mode = "RGBA") ∧
              "R" ∈ image_channels ∧ "G" ∈ image_channels ∧
              is_rgb_grayscale image then
            some (get_channel image "R")
          else some (convert_to_grayscale image)
      else none

/-! ### Texture-set builder (src/channel_packer.py `_build_texture_sets`) -/

/-- `TextureSet` dataclass (src/backend/texture_classes.py). -/
structure TextureSet where
  texture_set_name : String
  available_texture_maps : TextureMapCollection
  processed : Bool
  completed : Bool
deriving Repr, DecidableEq

/-- One input file of `_build_texture_sets` together with the results of
the upstream collaborator calls made in its loop body:
`_extract_info_from_texture_set_name(full_path)` (the filename matcher) and
`_extract_image_data(full_path)` (header read; `none` on failure). -/
structure ClassifiedFile where
  full_path : String
  info : Option (String × String × String × String)
  resolution : Option (Nat × Nat)
deriving Repr, DecidableEq

/-- Stable insertion of one keyed entry into a key-sorted list (equal keys
keep their original relative order). -/
def insertSortedByKey (kv : String × TextureSet) :
    List (String × TextureSet) → List (String × TextureSet)
  | [] => [kv]
  | x :: xs =>
      if kv.1 < x.1 then kv :: x :: xs else x :: insertSortedByKey kv xs

/-- `dict(sorted(raw_textures.items(), key=lambda kv: kv[0]))`. -/
def sortByKey (l : List (String × TextureSet)) :
    List (String × TextureSet) :=
  l.foldl (fun acc kv => insertSortedByKey kv acc) []

/-- `_build_texture_sets` (lines 676-728): group each classified file by
lowercase set name, creating the `TextureSet` on first contact, and assign
`available_texture_maps[texture_type] = texture_data` — a plain dict
assignment that overwrites any earlier entry for the same type.  (The
`required_texture_types_by_set` parameter is `None` at the only pipeline
call site, and the context bookkeeping only annotates converted EXR
sources; both are elided.) -/
def build_texture_sets (classified_files : List ClassifiedFile) :
    List (String × TextureSet) :=
  sortByKey (classified_files.foldl
    (fun raw_textures file =>
      match file.info with
      | none => raw_textures
      | some (texture_set_name, texture_type, declared_suffix,
          original_filename) =>
          let texture_set_name_lower := pyLower texture_set_name
          let raw_textures :=
            if (assocLookup raw_textures texture_set_name_lower).isNone then
              raw_textures ++
                [(texture_set_name_lower, ⟨texture_set_name, [], false, false⟩)]
            else raw_textures
          let texture_data : TextureMapData :=
            ⟨file.full_path, file.resolution, declared_suffix,
             original_filename⟩
          match assocLookup raw_textures texture_set_name_lower with
          | some texture_set =>
              let updated_maps :=
                assocUpdate texture_set.available_texture_maps
                  texture_type texture_data
              assocUpdate raw_textures texture_set_name_lower
                { texture_set with available_texture_maps := updated_maps }
          | none => raw_textures)
    [])

/-! ### Compositor load phase
(src/channel_packer.py `_generate_channel_packed_texture`) -/

/-- Lines 1051-1063: open every required map; `none` in `open_results`
models a caught `OSError`/`ValueError` (the per-file I/O failure), for
which the source logs "will use default" and stores `None`. -/
def load_texture_maps (open_results : List (String × Option Image))
    (target_resolution : Nat × Nat) : List (String × Option Image) :=
  open_results.foldl
    (fun loaded_textures entry =>
      match entry.2 with
      | some texture =>
          let texture :=
            if get_size texture ≠ target_resolution then
              resize texture target_resolution
            else texture
          assocUpdate loaded_textures entry.1 (some texture)
      | none => assocUpdate loaded_textures entry.1 none)
    []

/-- Lines 1067-1077: replace failed opens by a default flat fill and scale
stragglers.  The default lookup is the subscript
`TEXTURE_CONFIG[texture_name.lower()]` — an exact, case-sensitive dict
access; `Except.error` models the uncaught `KeyError` it raises. -/
def apply_defaults_and_scaling (texture_names : List String)
    (loaded : List (String × Option Image))
    (target_resolution : Nat × Nat) :
    Except String (List (String × Option Image)) :=
  texture_names.foldlM
    (fun loaded_textures texture_name =>
      match (assocLookup loaded_textures texture_name).getD none with
      | none =>
          match assocLookup TEXTURE_CONFIG (pyLower texture_name) with
          | none => .error ("KeyError: " ++ pyLower texture_name)
          | some config =>
              pure (assocUpdate loaded_textures texture_name
                (some (new_image_grayscale target_resolution
                  config.default.2)))
      | some target_texture =>
          if get_size target_texture ≠ target_resolution then
            pure (assocUpdate loaded_textures texture_name
              (some (resize target_texture target_resolution)))
          else pure loaded_textures)
    loaded

/-- The two loading loops in sequence, over the per-map open outcomes. -/
def generate_load_phase (open_results : List (String × Option Image))
    (target_resolution : Nat × Nat) :
    Except String (List (String × Option Image)) :=
  apply_defaults_and_scaling (open_results.map (·.1))
    (load_texture_maps open_results target_resolution) target_resolution

/-! ### Output filename (src/channel_packer.py lines 1104-1110) -/

/-- The filename assembly of `_generate_channel_packed_texture`: the
case-preserved set name, the stripped mode suffix, and a resolution bucket
only when some contributing map declared a size suffix. -/
def output_filename (display_name packing_mode_suffix : String)
    (texture_maps_for_mode : TextureMapCollection)
    (target_resolution : Nat × Nat) : String :=
  let resolution_suffix :=
    if texture_maps_for_mode.any (fun tex => tex.2.suffix != "") then
      "_" ++ resolution_to_suffix target_resolution
    else ""
  display_name ++ "_" ++ pyStrip packing_mode_suffix ++ resolution_suffix

/-! ### Filesystem side effects (src/backend/io_backend.py)

The filesystem is modelled as the list of existing file paths; `os.remove`
deletes every occurrence of a path, `shutil.move` removes the source and
adds the target.  Directory creation (`os.makedirs`, idempotent) is not
observable through these claims and is elided. -/

abbrev FileSystem := List String

/-- `os.path.basename` (with `/` separators, as the source normalizes). -/
def basename (p : String) : String :=
  ⟨(p.data.reverse.takeWhile (fun c => c ≠ '/')).reverse⟩

/-- `os.path.splitext`: split off the extension at the last dot, except
for a dot-only leading name. -/
def splitext (filename : String) : String × String :=
  let cs := filename.data
  let extRev := cs.reverse.takeWhile (fun c => c ≠ '.')
  if cs.length - 1 ≤ extRev.length then (filename, "")
  else (⟨cs.take (cs.length - extRev.length - 1)⟩, ⟨'.' :: extRev.reverse⟩)

/-- `os.path.join` (posix form). -/
def joinPath (dir file : String) : String := dir ++ "/" ++ file

/-- The `while True` collision-avoidance loop of `move_used_map`: try
`<fname>_<i><fext>` for i = 2, 3, ... until a free path is found.  The
candidate names are pairwise distinct, so with fuel exceeding the number
of existing files the search always terminates exactly as the Python loop
does; the fuel-exhausted arm is unreachable. -/
def findAlternativePath (fs : FileSystem) (backup_directory fname fext : String) :
    Nat → Nat → String
  | 0, i => joinPath backup_directory (fname ++ "_" ++ toString i ++ fext)
  | fuel + 1, i =>
      let alternative_path :=
        joinPath backup_directory (fname ++ "_" ++ toString i ++ fext)
      if alternative_path ∈ fs then
        findAlternativePath fs backup_directory fname fext fuel (i + 1)
      else alternative_path

/-- `move_used_map(source_path, backup_directory, context)`:
`if not backup_directory or DELETE_USED: return`, then move the existing
source into the backup folder under a collision-avoiding name. -/
def move_used_map (delete_used : Bool) (source_path : String)
    (backup_directory : Option String) (fs : FileSystem) : FileSystem :=
  if backup_directory.getD "" = "" ∨ delete_used then fs
  else
    let dir := backup_directory.getD ""
    if source_path = "" ∨ source_path ∉ fs then fs
    else
      let filename := basename source_path
      let target_path := joinPath dir filename
      let target_path :=
        if target_path ∈ fs then
          let stem_ext := splitext filename
          findAlternativePath fs dir stem_ext.1 stem_ext.2 (fs.length + 1) 2
        else target_path
      fs.filter (fun p => p ≠ source_path) ++ [target_path]

/-- The context fields `cleanup` reads: the resolved selection path values,
the temporary files produced by EXR conversion
(`textures_converted_from_raw` keys), and the original EXR source paths
carried by its values. -/
structure CPContext where
  selection_paths_values : List String
  textures_converted_temp : List String
  raw_source_paths : List String
deriving Repr, DecidableEq

/-- `cleanup(context)`: always delete the temporary EXR conversions; when
`DELETE_USED`, also delete every resolved selection path and the original
EXR sources.  Each delete is guarded by an existence check
(`os.path.isfile`) and a truthiness check where the source has one. -/
def cleanup (delete_used : Bool) (context : CPContext) (fs : FileSystem) :
    FileSystem :=
  let fs := context.textures_converted_temp.foldl
    (fun acc path =>
      if path ≠ "" ∧ path ∈ acc then acc.filter (fun p => p ≠ path)
      else acc) fs
  if ¬ delete_used then fs
  else
    let fs := context.selection_paths_values.foldl
      (fun acc absolute_path =>
        if absolute_path = "" then acc
        else if absolute_path ∈ acc then
          acc.filter (fun p => p ≠ absolute_path)
        else acc) fs
    context.raw_source_paths.foldl
      (fun acc path =>
        if path ∈ acc then acc.filter (fun p => p ≠ path) else acc) fs

/-! ### Helper lemmas -/

/-- `x &&& 255` is `x % 256`. -/
lemma and_255_eq_mod (x : Nat) : x &&& 255 = x % 256 := by
  have h := Nat.and_pow_two_sub_one_eq_mod x 8
  norm_num at h
  exact h

/-- Folding steps that never add paths cannot introduce membership. -/
lemma foldl_removal_subset (step : List String → String → List String)
    (hstep : ∀ acc x q, q ∈ step acc x → q ∈ acc) :
    ∀ (l : List String) (fs : List String) (q : String),
      q ∈ l.foldl step fs → q ∈ fs := by
  intro l
  induction l with
  | nil => intro fs q h; simpa using h
  | cons a t ih =>
      intro fs q h
      rw [List.foldl_cons] at h
      exact hstep fs a q (ih (step fs a) q h)

/-- The selection-deletion fold of `cleanup` removes every non-empty path
it is given. -/
lemma not_mem_selection_foldl :
    ∀ (l : List String) (fs : List String) (p : String), p ∈ l → p ≠ "" →
      p ∉ l.foldl (fun acc absolute_path =>
        if absolute_path = "" then acc
        else if absolute_path ∈ acc then
          acc.filter (fun q => q ≠ absolute_path)
        else acc) fs := by
  intro l
  have hstep : ∀ (acc : List String) (x : String) (q : String),
      q ∈ (fun (acc : List String) (absolute_path : String) =>
        if absolute_path = "" then acc
        else if absolute_path ∈ acc then
          acc.filter (fun q => q ≠ absolute_path)
        else acc) acc x → q ∈ acc := by
    intro acc x q h
    beta_reduce at h
    split_ifs at h
    · exact h
    · exact (List.mem_filter.mp h).1
    · exact h
  induction l with
  | nil => intro fs p hp; simp at hp
  | cons a t ih =>
      intro fs p hp hne
      rw [List.foldl_cons]
      by_cases hpa : p = a
      · subst hpa
        intro hmem
        have hfs1 := foldl_removal_subset _ hstep t _ p hmem
        rw [if_neg hne] at hfs1
        by_cases hin : p ∈ fs
        · rw [if_pos hin] at hfs1
          simpa using (List.mem_filter.mp hfs1).2
        · rw [if_neg hin] at hfs1
          exact hin hfs1
      · have hpt : p ∈ t := by
          rcases List.mem_cons.mp hp with h | h
          · exact absurd h hpa
          · exact h
        exact ih _ p hpt hne

/-- A list whose mapped image is all `some` has those values as its
`filterMap`. -/
lemma filterMap_eq_of_map_eq_map_some {α β : Type} (f : α → Option β) :
    ∀ (l : List α) (rs : List β), l.map f = rs.map some →
      l.filterMap f = rs := by
  intro l
  induction l with
  | nil =>
      intro rs h
      cases rs with
      | nil => rfl
      | cons r rest => simp at h
  | cons a t ih =>
      intro rs h
      cases rs with
      | nil => simp at h
      | cons r rest =>
          simp only [List.map_cons, List.cons.injEq] at h
          rw [List.filterMap_cons, h.1]
          simp [ih rest h.2]

/-- If some element maps to `none`, the `filterMap` is strictly shorter. -/
lemma length_filterMap_lt_of_none {α β : Type} (f : α → Option β) :
    ∀ (l : List α), (∃ x ∈ l, f x = none) →
      (l.filterMap f).length < l.length := by
  intro l
  induction l with
  | nil => intro h; simp at h
  | cons a t ih =>
      intro h
      rcases h with ⟨x, hx, hfx⟩
      rw [List.filterMap_cons]
      cases hfa : f a with
      | none =>
          have hle := List.length_filterMap_le f t
          simp only [List.length_cons]
          omega
      | some b =>
          rcases List.mem_cons.mp hx with rfl | hxt
          · rw [hfa] at hfx; cases hfx
          · have := ih ⟨x, hxt, hfx⟩
            simp only [List.length_cons]
            omega

/-- Folding a keep-or-replace step over copies of the start value returns
the start value. -/
lemma foldl_ite_const {α : Type} (c : α → α → Prop) [DecidableRel c]
    (r : α) : ∀ (l : List α), (∀ x ∈ l, x = r) →
      l.foldl (fun m x => if c x m then x else m) r = r := by
  intro l
  induction l with
  | nil => intro _; rfl
  | cons a t ih =>
      intro h
      have ha : a = r := h a (List.mem_cons_self a t)
      have hstep : (if c a r then a else r) = r := by
        subst ha; split <;> rfl
      rw [List.foldl_cons, hstep]
      exact ih (fun x hx => h x (List.mem_cons_of_mem a hx))

/-- When every collected resolution is the same, the area-min and area-max
picks coincide. -/
lemma minByArea_eq_maxByArea_of_allSame (rs : List (Nat × Nat))
    (h : allSameResolution rs = true) : minByArea rs = maxByArea rs := by
  cases rs with
  | nil => rfl
  | cons r rest =>
      simp only [allSameResolution, List.all_eq_true] at h
      have hall : ∀ x ∈ rest, x = r := fun x hx => by
        have := h x hx; exact beq_iff_eq.mp this
      show rest.foldl (fun m x => if area x < area m then x else m) r =
        rest.foldl (fun m x => if area m < area x then x else m) r
      rw [foldl_ite_const (fun x m => area x < area m) r rest hall,
          foldl_ite_const (fun x m => area m < area x) r rest hall]

/-! ### Claim theorems: resolution resolver -/

/-- C4: for a qualifying (set, mode) pair the resolution resolver declares
the mode invalid when any required map's resolution is unreadable
(returning `(false, (0,0))`), or when the area-minimum resolution's width
or height is not an exact power of two (returning that minimum for
diagnostics); otherwise it returns the shared resolution when all
resolutions are identical, the area-maximum when the resize strategy is
`"up"`, and the area-minimum otherwise. -/
theorem C4_target_resolution_resolver :
    (∀ (maps : TextureMapCollection) (strategy : String),
        (∃ m ∈ maps, m.2.resolution = none) →
        check_textures_and_pick_target_resolution maps strategy
          = (false, (0, 0))) ∧
    (∀ (maps : TextureMapCollection) (strategy : String)
        (rs : List (Nat × Nat)),
        maps.map (fun t => t.2.resolution) = rs.map some → rs ≠ [] →
        ((is_power_of_two (minByArea rs).1 = false ∨
          is_power_of_two (minByArea rs).2 = false) →
          check_textures_and_pick_target_resolution maps strategy
            = (false, minByArea rs)) ∧
        (is_power_of_two (minByArea rs).1 = true →
          is_power_of_two (minByArea rs).2 = true →
          (allSameResolution rs = true →
            check_textures_and_pick_target_resolution maps strategy
              = (true, minByArea rs)) ∧
          (strategy = "up" →
            check_textures_and_pick_target_resolution maps strategy
              = (true, maxByArea rs)) ∧
          (strategy ≠ "up" →
            check_textures_and_pick_target_resolution maps strategy
              = (true, minByArea rs)))) := by
  constructor
  · intro maps strategy h
    have hlt := length_filterMap_lt_of_none (fun t => t.2.resolution) maps h
    simp only [check_textures_and_pick_target_resolution]
    rw [if_pos (Or.inr hlt)]
  · intro maps strategy rs hmap hne
    have hfm : maps.filterMap (fun t => t.2.resolution) = rs :=
      filterMap_eq_of_map_eq_map_some _ _ _ hmap
    have hlen : maps.length = rs.length := by
      have := congrArg List.length hmap
      simpa using this
    have hguard : ¬ (rs.isEmpty = true ∨ rs.length < rs.length) := by
      simp only [List.isEmpty_iff, not_or]
      exact ⟨hne, Nat.lt_irrefl _⟩
    have key : check_textures_and_pick_target_resolution maps strategy =
        (if ¬ is_power_of_two (minByArea rs).1 ∨
            ¬ is_power_of_two (minByArea rs).2
         then (false, minByArea rs)
         else if allSameResolution rs = true then (true, minByArea rs)
         else if strategy = "up" then (true, maxByArea rs)
         else (true, minByArea rs)) := by
      simp only [check_textures_and_pick_target_resolution]
      rw [hfm, hlen, if_neg hguard]
    constructor
    · intro h
      have hcond : ¬ is_power_of_two (minByArea rs).1 ∨
          ¬ is_power_of_two (minByArea rs).2 := by
        rcases h with h | h
        · exact Or.inl (by simp [h])
        · exact Or.inr (by simp [h])
      rw [key, if_pos hcond]
    · intro h1 h2
      have hcond : ¬ (¬ is_power_of_two (minByArea rs).1 ∨
          ¬ is_power_of_two (minByArea rs).2) := by
        simp [h1, h2]
      refine ⟨?_, ?_, ?_⟩
      · intro hsame
        rw [key, if_neg hcond, if_pos hsame]
      · intro hup
        by_cases hsame : allSameResolution rs = true
        · rw [key, if_neg hcond, if_pos hsame,
              minByArea_eq_maxByArea_of_allSame rs hsame]
        · rw [key, if_neg hcond, if_neg hsame, if_pos hup]
      · intro hnup
        by_cases hsame : allSameResolution rs = true
        · rw [key, if_neg hcond, if_pos hsame]
        · rw [key, if_neg hcond, if_neg hsame, if_neg hnup]

/-- C4 witness: maps sized {256×256, 512×512}: strategy `"down"` picks
256×256, strategy `"up"` picks 512×512; an unreadable resolution yields
`(false, (0,0))`; a 300×300 minimum is rejected carrying 300×300. -/
theorem C4_target_resolution_resolver_witness :
    check_textures_and_pick_target_resolution
      [("albedo", ⟨"a.png", some (256, 256), "", "a"⟩),
       ("normal", ⟨"n.png", some (512, 512), "", "n"⟩)] "down"
      = (true, (256, 256)) ∧
    check_textures_and_pick_target_resolution
      [("albedo", ⟨"a.png", some (256, 256), "", "a"⟩),
       ("normal", ⟨"n.png", some (512, 512), "", "n"⟩)] "up"
      = (true, (512, 512)) ∧
    check_textures_and_pick_target_resolution
      [("albedo", ⟨"a.png", none, "", "a"⟩)] "down" = (false, (0, 0)) ∧
    check_textures_and_pick_target_resolution
      [("albedo", ⟨"a.png", some (300, 300), "", "a"⟩),
       ("normal", ⟨"n.png", some (512, 512), "", "n"⟩)] "down"
      = (false, (300, 300)) := by
  refine ⟨?_, ?_, ?_, ?_⟩
  · exact ((C4_target_resolution_resolver.2
      [("albedo", ⟨"a.png", some (256, 256), "", "a"⟩),
       ("normal", ⟨"n.png", some (512, 512), "", "n"⟩)] "down"
      [(256, 256), (512, 512)] (by decide) (by decide)).2 (by decide)
        (by decide)).2.2 (by decide)
  · exact ((C4_target_resolution_resolver.2
      [("albedo", ⟨"a.png", some (256, 256), "", "a"⟩),
       ("normal", ⟨"n.png", some (512, 512), "", "n"⟩)] "up"
      [(256, 256), (512, 512)] (by decide) (by decide)).2 (by decide)
        (by decide)).2.1 rfl
  · exact C4_target_resolution_resolver.1
      [("albedo", ⟨"a.png", none, "", "a"⟩)] "down"
      ⟨("albedo", ⟨"a.png", none, "", "a"⟩), by decide, rfl⟩
  · exact (C4_target_resolution_resolver.2
      [("albedo", ⟨"a.png", some (300, 300), "", "a"⟩),
       ("normal", ⟨"n.png", some (512, 512), "", "n"⟩)] "down"
      [(300, 300), (512, 512)] (by decide) (by decide)).1 (by decide)

/-- C9: every resize-strategy string other than the exact lowercase
`"up"` makes the target-resolution picker behave identically to `"down"`,
and configuration validation hands the configured value to the resolver
unchanged (it only computes whether to log a warning). -/
theorem C9_resize_strategy_fallthrough :
    (∀ (strategy : String), strategy ≠ "up" →
      ∀ (maps : TextureMapCollection),
        check_textures_and_pick_target_resolution maps strategy
          = check_textures_and_pick_target_resolution maps "down") ∧
    (∀ (strategy : String),
      (validate_config_resize_strategy strategy).1 = strategy) := by
  constructor
  · intro strategy h maps
    simp only [check_textures_and_pick_target_resolution]
    rw [if_neg h, if_neg (by decide : ¬ ("down" : String) = "up")]
  · intro strategy
    rfl

/-- C9 witness: `"UP"`, `"down"` and `""` all behave as `"down"` on the
{256×256, 512×512} pair, and validation leaves `"UP"` unchanged (while
its lowercased copy would not even warn). -/
theorem C9_resize_strategy_fallthrough_witness :
    check_textures_and_pick_target_resolution
      [("albedo", ⟨"a.png", some (256, 256), "", "a"⟩),
       ("normal", ⟨"n.png", some (512, 512), "", "n"⟩)] "UP"
      = check_textures_and_pick_target_resolution
        [("albedo", ⟨"a.png", some (256, 256), "", "a"⟩),
         ("normal", ⟨"n.png", some (512, 512), "", "n"⟩)] "down" ∧
    check_textures_and_pick_target_resolution
      [("albedo", ⟨"a.png", some (256, 256), "", "a"⟩),
       ("normal", ⟨"n.png", some (512, 512), "", "n"⟩)] ""
      = check_textures_and_pick_target_resolution
        [("albedo", ⟨"a.png", some (256, 256), "", "a"⟩),
         ("normal", ⟨"n.png", some (512, 512), "", "n"⟩)] "down" ∧
    (validate_config_resize_strategy "UP").1 = "UP" := by
  refine ⟨?_, ?_, ?_⟩
  · exact C9_resize_strategy_fallthrough.1 "UP" (by decide) _
  · exact C9_resize_strategy_fallthrough.1 "" (by decide) _
  · exact C9_resize_strategy_fallthrough.2 "UP"

/-! ### Claim theorems: filename and bit depth -/

/-- C7: the output filename is the case-preserved set name, `'_'`, the mode
suffix, and — only when at least one contributing source map carried a
declared size suffix — `'_'` plus a resolution bucket computed from the
target resolution's larger dimension by inclusive thresholds
512→"512", 1024→"1K", 2048→"2K", 4096→"4K", 8192→"8K", and `"<px>px"`
above 8192. -/
theorem C7_output_filename_and_bucket :
    (∀ (s : Nat × Nat),
      (max s.1 s.2 ≤ 512 → resolution_to_suffix s = "512") ∧
      (512 < max s.1 s.2 → max s.1 s.2 ≤ 1024 →
        resolution_to_suffix s = "1K") ∧
      (1024 < max s.1 s.2 → max s.1 s.2 ≤ 2048 →
        resolution_to_suffix s = "2K") ∧
      (2048 < max s.1 s.2 → max s.1 s.2 ≤ 4096 →
        resolution_to_suffix s = "4K") ∧
      (4096 < max s.1 s.2 → max s.1 s.2 ≤ 8192 →
        resolution_to_suffix s = "8K") ∧
      (8192 < max s.1 s.2 →
        resolution_to_suffix s = toString (max s.1 s.2) ++ "px")) ∧
    (∀ (display_name mode_suffix : String) (maps : TextureMapCollection)
        (target : Nat × Nat),
      (maps.any (fun tex => tex.2.suffix != "") = true →
        output_filename display_name mode_suffix maps target
          = display_name ++ "_" ++ pyStrip mode_suffix ++ "_"
              ++ resolution_to_suffix target) ∧
      (maps.any (fun tex => tex.2.suffix != "") = false →
        output_filename display_name mode_suffix maps target
          = display_name ++ "_" ++ pyStrip mode_suffix)) := by
  constructor
  · intro s
    refine ⟨?_, ?_, ?_, ?_, ?_, ?_⟩
    · intro h1
      simp only [resolution_to_suffix, List.find?]
      dsimp only
      rw [decide_eq_true h1]
    · intro h0 h1
      simp only [resolution_to_suffix, List.find?]
      dsimp only
      rw [decide_eq_false (by omega : ¬ max s.1 s.2 ≤ 512),
          decide_eq_true h1]
    · intro h0 h1
      simp only [resolution_to_suffix, List.find?]
      dsimp only
      rw [decide_eq_false (by omega : ¬ max s.1 s.2 ≤ 512),
          decide_eq_false (by omega : ¬ max s.1 s.2 ≤ 1024),
          decide_eq_true h1]
    · intro h0 h1
      simp only [resolution_to_suffix, List.find?]
      dsimp only
      rw [decide_eq_false (by omega : ¬ max s.1 s.2 ≤ 512),
          decide_eq_false (by omega : ¬ max s.1 s.2 ≤ 1024),
          decide_eq_false (by omega : ¬ max s.1 s.2 ≤ 2048),
          decide_eq_true h1]
    · intro h0 h1
      simp only [resolution_to_suffix, List.find?]
      dsimp only
      rw [decide_eq_false (by omega : ¬ max s.1 s.2 ≤ 512),
          decide_eq_false (by omega : ¬ max s.1 s.2 ≤ 1024),
          decide_eq_false (by omega : ¬ max s.1 s.2 ≤ 2048),
          decide_eq_false (by omega : ¬ max s.1 s.2 ≤ 4096),
          decide_eq_true h1]
    · intro h0
      simp only [resolution_to_suffix, List.find?]
      dsimp only
      rw [decide_eq_false (by omega : ¬ max s.1 s.2 ≤ 512),
          decide_eq_false (by omega : ¬ max s.1 s.2 ≤ 1024),
          decide_eq_false (by omega : ¬ max s.1 s.2 ≤ 2048),
          decide_eq_false (by omega : ¬ max s.1 s.2 ≤ 4096),
          decide_eq_false (by omega : ¬ max s.1 s.2 ≤ 8192)]
  · intro display_name mode_suffix maps target
    constructor
    · intro h
      simp only [output_filename]
      rw [if_pos h, ← String.append_assoc]
    · intro h
      simp only [output_filename]
      rw [if_neg (by simp [h]), String.append_empty]

/-- C7 witness: set "Wall", mode suffix "AG", one contributing map with a
declared "2k" suffix and target 2048×2048 yields `Wall_AG_2K`; with no
declared suffix the bucket is omitted; 8193 falls into the `px` bucket. -/
theorem C7_output_filename_and_bucket_witness :
    output_filename "Wall" "AG"
      [("albedo", ⟨"p", some (2048, 2048), "2k", "Wall_Albedo_2K"⟩)]
      (2048, 2048) = "Wall_AG_2K" ∧
    output_filename "Wall" "AG"
      [("albedo", ⟨"p", some (2048, 2048), "", "Wall_Albedo"⟩)]
      (2048, 2048) = "Wall_AG" ∧
    resolution_to_suffix (8193, 1) = "8193px" := by
  refine ⟨?_, ?_, ?_⟩
  · exact ((C7_output_filename_and_bucket.2 "Wall" "AG"
      [("albedo", ⟨"p", some (2048, 2048), "2k", "Wall_Albedo_2K"⟩)]
      (2048, 2048)).1 (by decide)).trans (by decide)
  · exact ((C7_output_filename_and_bucket.2 "Wall" "AG"
      [("albedo", ⟨"p", some (2048, 2048), "", "Wall_Albedo"⟩)]
      (2048, 2048)).2 (by decide)).trans (by decide)
  · exact ((C7_output_filename_and_bucket.1 (8193, 1)).2.2.2.2.2
      (by decide)).trans (by decide)

/-- C8: for a 16-bit integer grayscale source image, `_16_to_8bit` (via
`convert_to_grayscale`) maps each pixel value `v` to its high byte
`v >> 8` — the linear compression `v / 256` of the 16-bit range into the
8-bit range — and never clips values at 255. -/
theorem C8_sixteen_bit_to_8bit :
    ∀ (image : Image) (data : List Nat),
      (image.mode = "I;16" ∨ image.mode = "I;16L" ∨ image.mode = "I;16B") →
      lookupBand image "I" = some data →
      (∀ v ∈ data, v < 65536) →
      convert_to_grayscale image
        = ⟨"L", image.size, [("L", data.map (fun v => v >>> 8))]⟩ ∧
      ∀ v ∈ data, v >>> 8 = v / 256 ∧ v >>> 8 ≤ 255 := by
  intro image data hmode hband hbound
  have hmodeL : ¬ image.mode = "L" := by
    rcases hmode with h | h | h <;> rw [h] <;> decide
  have hmodeI : ¬ image.mode = "I" := by
    rcases hmode with h | h | h <;> rw [h] <;> decide
  have hmode16 : image.mode = "I" ∨ image.mode = "I;16" ∨
      image.mode = "I;16L" ∨ image.mode = "I;16B" := by
    rcases hmode with h | h | h
    · exact Or.inr (Or.inl h)
    · exact Or.inr (Or.inr (Or.inl h))
    · exact Or.inr (Or.inr (Or.inr h))
  have hdiv : ∀ v ∈ data, v >>> 8 = v / 256 ∧ v >>> 8 ≤ 255 := by
    intro v hv
    have hb := hbound v hv
    have hpow : (2 : Nat) ^ 8 = 256 := by norm_num
    rw [Nat.shiftRight_eq_div_pow, hpow]
    exact ⟨rfl, by omega⟩
  refine ⟨?_, hdiv⟩
  unfold convert_to_grayscale
  rw [if_neg hmodeL, if_pos hmode16]
  unfold sixteen_to_8bit_image
  rw [if_pos hmode16]
  unfold normalize_to_16bit
  rw [if_neg hmodeI, hband]
  simp only [Option.getD_some]
  have hmap : data.map sixteen_to_8bit_pixel
      = data.map (fun v => v >>> 8) := by
    apply List.map_congr_left
    intro v hv
    have hb := hbound v hv
    unfold sixteen_to_8bit_pixel
    rw [and_255_eq_mod]
    have hlt : v >>> 8 < 256 := by
      rw [Nat.shiftRight_eq_div_pow]
      have hpow : (2 : Nat) ^ 8 = 256 := by norm_num
      rw [hpow]
      omega
    exact Nat.mod_eq_of_lt hlt
  rw [hmap]

/-- C8 witness: the pixel values 0, 255, 256, 32768, 65535 convert to
0, 0, 1, 128, 255 — high bytes, not clamped values (255 maps to 0,
32768 to 128, not to 255). -/
theorem C8_sixteen_bit_to_8bit_witness :
    convert_to_grayscale
      ⟨"I;16", (5, 1), [("I", [0, 255, 256, 32768, 65535])]⟩
      = ⟨"L", (5, 1), [("L", [0, 0, 1, 128, 255])]⟩ := by
  exact ((C8_sixteen_bit_to_8bit
    ⟨"I;16", (5, 1), [("I", [0, 255, 256, 32768, 65535])]⟩
    [0, 255, 256, 32768, 65535] (Or.inl rfl) rfl (by decide)).1).trans
    (by decide)

/-- C3: a (set, mode) pair qualifies iff: with at most 2 distinct required
base types the set contains exactly all of them; with more than 2 it
contains at least 2 of them; and at least 2 concrete maps remain after
narrowing to the present types. -/
theorem C3_mode_qualification :
    ∀ (mode : PackingMode) (available_maps : TextureMapCollection),
      get_valid_mode_for_set mode available_maps = true ↔
        (((required_base_texture_map_types_for_mode mode).card ≤ 2 →
          required_base_texture_map_types_for_mode mode ∩
              (available_maps.map (·.1)).toFinset
            = required_base_texture_map_types_for_mode mode) ∧
        (2 < (required_base_texture_map_types_for_mode mode).card →
          2 ≤ (required_base_texture_map_types_for_mode mode ∩
              (available_maps.map (·.1)).toFinset).card) ∧
        2 ≤ (get_available_texture_maps_for_packing mode
              available_maps).length) := by
  intro mode available_maps
  simp only [get_valid_mode_for_set]
  split_ifs with h1 h2
  · simp only [Bool.false_eq_true, false_iff, not_and, not_or]
    intro hexact hcard
    rcases h1 with ⟨hle, hne⟩ | ⟨hgt, hlt⟩
    · exact absurd (hexact hle) hne
    · have := hcard hgt
      omega
  · simp only [Bool.false_eq_true, false_iff, not_and]
    intro _ _
    omega
  · simp only [true_iff]
    push_neg at h1 h2
    exact ⟨h1.1, h1.2, h2⟩

/-- C3 witness: a 3-type mode (AO, Roughness, Metalness) qualifies on a
set holding 2 of the 3; the same mode is rejected when only 1 is present;
a 2-type mode is rejected when only 1 of its 2 types is present. -/
theorem C3_mode_qualification_witness :
    get_valid_mode_for_set
      ⟨"ARM", "", ⟨some "AO", some "Roughness", some "Metalness", none⟩⟩
      [("ao", ⟨"a", some (512, 512), "", "a"⟩),
       ("roughness", ⟨"r", some (512, 512), "", "r"⟩)] = true ∧
    get_valid_mode_for_set
      ⟨"ARM", "", ⟨some "AO", some "Roughness", some "Metalness", none⟩⟩
      [("ao", ⟨"a", some (512, 512), "", "a"⟩)] = false ∧
    get_valid_mode_for_set
      ⟨"AR", "", ⟨some "AO", some "Roughness", some "AO", none⟩⟩
      [("ao", ⟨"a", some (512, 512), "", "a"⟩)] = false := by
  refine ⟨?_, by decide, by decide⟩
  exact (C3_mode_qualification
    ⟨"ARM", "", ⟨some "AO", some "Roughness", some "Metalness", none⟩⟩
    [("ao", ⟨"a", some (512, 512), "", "a"⟩),
     ("roughness", ⟨"r", some (512, 512), "", "r"⟩)]).mpr (by decide)

/-- C5: a configured mode slot whose source reference resolves to a type
with three-channel default kind and carries no explicit component gets the
slot's own letter as component when the slot is R, G or B, and is a fatal
configuration error when the slot is A. -/
theorem C5_three_channel_default_component :
    ∀ (channel channel_value group1 : String) (cfg : TextureTypeConfig),
      parse_channel_ref (pyStrip channel_value) = some (group1, "") →
      assocLookupCI TEXTURE_CONFIG (pyLower group1) = some cfg →
      pyUpper cfg.default.1 = "RGB" →
      ((channel = "R" ∨ channel = "G" ∨ channel = "B") →
        validate_packing_mode_channel channel channel_value
          = .ok (pyLower group1 ++ "." ++ pyLower channel)) ∧
      (channel = "A" →
        validate_packing_mode_channel channel channel_value
          = .error "Alpha is assigned a full RGB map without explicit channel") := by
  intro channel channel_value group1 cfg hparse hlookup hkind
  have hspec : pyLower "" = "" := rfl
  have key : validate_packing_mode_channel channel channel_value =
      (if channel = "R" ∨ channel = "G" ∨ channel = "B" then
        .ok (pyLower group1 ++ "." ++ pyLower channel)
      else if channel = "A" then
        .error "Alpha is assigned a full RGB map without explicit channel"
      else .ok channel_value) := by
    simp only [validate_packing_mode_channel, hparse, hlookup]
    rw [if_pos hkind, if_pos hspec]
  constructor
  · intro h
    rw [key, if_pos h]
  · intro h
    subst h
    rw [key, if_neg (by decide), if_pos rfl]

/-- C5 witness: `"Normal"` (three-channel kind, no component) in the R and
G slots normalizes to `normal.r` / `normal.g`; in the A slot it is a fatal
error. -/
theorem C5_three_channel_default_component_witness :
    validate_packing_mode_channel "R" "Normal" = .ok "normal.r" ∧
    validate_packing_mode_channel "G" "Normal" = .ok "normal.g" ∧
    validate_packing_mode_channel "A" "Normal"
      = .error "Alpha is assigned a full RGB map without explicit channel" := by
  refine ⟨?_, ?_, ?_⟩
  · exact ((C5_three_channel_default_component "R" "Normal" "Normal"
      ⟨["normal_dx", "normal_gl", "normaldx", "normalgl", "normalgl",
        "normal", "nor_dx", "nor_gl", "norm", "nrm", "n"], ("RGB", 128)⟩
      (by decide) (by decide) (by decide)).1 (Or.inl rfl)).trans
      (congrArg Except.ok (by decide))
  · exact ((C5_three_channel_default_component "G" "Normal" "Normal"
      ⟨["normal_dx", "normal_gl", "normaldx", "normalgl", "normalgl",
        "normal", "nor_dx", "nor_gl", "norm", "nrm", "n"], ("RGB", 128)⟩
      (by decide) (by decide) (by decide)).1 (Or.inr (Or.inl rfl))).trans
      (congrArg Except.ok (by decide))
  · exact (C5_three_channel_default_component "A" "Normal" "Normal"
      ⟨["normal_dx", "normal_gl", "normaldx", "normalgl", "normalgl",
        "normal", "nor_dx", "nor_gl", "norm", "nrm", "n"], ("RGB", 128)⟩
      (by decide) (by decide) (by decide)).2 rfl

/-- On a plain RGB image, `is_rgb_grayscale` holds exactly when the R and
G bands are pixel-identical (the extrema precheck only short-circuits). -/
lemma is_rgb_grayscale_rgb_image (r g b : List Nat) (size : Nat × Nat) :
    is_rgb_grayscale ⟨"RGB", size, [("R", r), ("G", g), ("B", b)]⟩
      = (r == g) := by
  simp only [is_rgb_grayscale, List.map_cons, List.map_nil]
  by_cases h : bandExtrema r = bandExtrema g
  · rw [if_neg (by simp [h])]
    rfl
  · rw [if_pos (by simpa using h)]
    have hne : r ≠ g := fun hrg => h (by rw [hrg])
    exact (beq_eq_false_iff_ne.mpr hne).symm

/-- C6: a multi-channel image referenced without an explicit component by
a type whose default kind is single-channel yields exactly its R channel
when its R and G channels are pixel-identical, and otherwise is reduced by
the luma conversion — never by silently picking a channel. -/
theorem C6_rgb_grayscale_extraction :
    ∀ (r g b : List Nat) (size : Nat × Nat) (texture_map_type : String)
      (cfg : TextureTypeConfig),
      match_channel_suffix texture_map_type = "" →
      assocLookupCI TEXTURE_CONFIG
          (pyLower ⟨texture_map_type.data.takeWhile (fun c => c ≠ '.')⟩)
        = some cfg →
      pyUpper cfg.default.1 = "G" →
      (r = g →
        extract_channel (some ⟨"RGB", size, [("R", r), ("G", g), ("B", b)]⟩)
          texture_map_type = some ⟨"L", size, [("L", r)]⟩) ∧
      (r ≠ g →
        extract_channel (some ⟨"RGB", size, [("R", r), ("G", g), ("B", b)]⟩)
          texture_map_type
          = some ⟨"L", size, [("L", luma_list r g b)]⟩) := by
  intro r g b size texture_map_type cfg hsuffix hlookup hkind
  have himg_gray :
      is_grayscale ⟨"RGB", size, [("R", r), ("G", g), ("B", b)]⟩ = false := rfl
  have key : extract_channel
      (some ⟨"RGB", size, [("R", r), ("G", g), ("B", b)]⟩) texture_map_type
      = (if is_rgb_grayscale ⟨"RGB", size, [("R", r), ("G", g), ("B", b)]⟩ then
          some (get_channel ⟨"RGB", size, [("R", r), ("G", g), ("B", b)]⟩ "R")
        else some (convert_to_grayscale
          ⟨"RGB", size, [("R", r), ("G", g), ("B", b)]⟩)) := by
    simp only [extract_channel, get_image_mode, get_image_channels,
      List.map_cons, List.map_nil, himg_gray, Bool.false_eq_true, if_false,
      hsuffix, hlookup, hkind]
    simp
  constructor
  · intro hrg
    rw [key, if_pos (by
      rw [is_rgb_grayscale_rgb_image]
      exact beq_iff_eq.mpr hrg)]
    rfl
  · intro hrg
    rw [key, if_neg (by
      rw [is_rgb_grayscale_rgb_image]
      simp [hrg])]
    rfl

/-- C6 witness: under type `"ao"` (single-channel kind, no explicit
component), an RGB image with identical R and G yields exactly its R
channel; one with differing R and G yields the luma reduction. -/
theorem C6_rgb_grayscale_extraction_witness :
    extract_channel
      (some ⟨"RGB", (2, 1), [("R", [10, 200]), ("G", [10, 200]),
        ("B", [0, 0])]⟩) "ao"
      = some ⟨"L", (2, 1), [("L", [10, 200])]⟩ ∧
    extract_channel
      (some ⟨"RGB", (2, 1), [("R", [10, 200]), ("G", [11, 200]),
        ("B", [0, 0])]⟩) "ao"
      = some ⟨"L", (2, 1),
          [("L", luma_list [10, 200] [11, 200] [0, 0])]⟩ := by
  constructor
  · exact (C6_rgb_grayscale_extraction [10, 200] [10, 200] [0, 0] (2, 1)
      "ao" ⟨["ambientocclusion", "occlusion", "ambient", "ao"], ("G", 255)⟩
      (by decide) (by decide) (by decide)).1 rfl
  · exact (C6_rgb_grayscale_extraction [10, 200] [11, 200] [0, 0] (2, 1)
      "ao" ⟨["ambientocclusion", "occlusion", "ambient", "ao"], ("G", 255)⟩
      (by decide) (by decide) (by decide)).2 (by decide)

/-- C2 (code evaluated at the failing input): two files of the same
(folder, set) classify to the same type `albedo`; `Rock_Albedo_4K.png`
(4096×4096, larger area) is processed first in sorted order, then
`Rock_Albedo_512.png` (512×512).  The slot assignment overwrites, so the
retained entry is the *last-processed* one — the strictly smaller 512×512
map — and the narrowing step forwards the stored entry unchanged (its
largest-resolution `max` arm is dead code for non-list values), so the
larger map is never recovered.  This contradicts the claimed
larger-width×height retention. -/
theorem C2_type_collision_keeps_last_not_largest :
    build_texture_sets
      [⟨"Rock_Albedo_4K.png",
        some ("Rock", "albedo", "4k", "Rock_Albedo_4K"), some (4096, 4096)⟩,
       ⟨"Rock_Albedo_512.png",
        some ("Rock", "albedo", "512", "Rock_Albedo_512"), some (512, 512)⟩]
      = [("rock", ⟨"Rock",
          [("albedo", ⟨"Rock_Albedo_512.png", some (512, 512), "512",
            "Rock_Albedo_512"⟩)], false, false⟩)] ∧
    area (512, 512) < area (4096, 4096) ∧
    get_available_texture_maps_for_packing
      ⟨"AG", "", ⟨some "Albedo.r", some "Albedo.g", some "Albedo.b", none⟩⟩
      [("albedo", ⟨"Rock_Albedo_512.png", some (512, 512), "512",
        "Rock_Albedo_512"⟩)]
      = [("albedo", ⟨"Rock_Albedo_512.png", some (512, 512), "512",
        "Rock_Albedo_512"⟩)] := by
  decide

/-- C1 (code evaluated at the failing input): when the single required
`ao` source map fails to open (per-file I/O error), the default-fill step
performs the exact, case-sensitive dict access `TEXTURE_CONFIG["ao"]`,
but every configured key is capitalized (`"AO"`, ...), so the run aborts
with an uncaught `KeyError` instead of degrading the map.  The
case-insensitive lookup used by the neighbouring missing-type fallback
(lines 1086-1091) would have found the type and produced the flat fill at
the type's default 255 (shown here at a 2×2 target). -/
theorem C1_failed_open_aborts_run :
    generate_load_phase [("ao", none)] (2, 2)
      = .error "KeyError: ao" ∧
    assocLookup TEXTURE_CONFIG "ao" = none ∧
    assocLookupCI TEXTURE_CONFIG "ao"
      = some ⟨["ambientocclusion", "occlusion", "ambient", "ao"],
          ("G", 255)⟩ ∧
    (match assocLookupCI TEXTURE_CONFIG "ao" with
      | some config =>
          some (new_image_grayscale (2, 2) config.default.2)
      | none => none)
      = some (new_image_grayscale (2, 2) 255) := by
  refine ⟨rfl, by decide, by decide, by decide⟩

/-- C10: with `DELETE_USED` configured true, `move_used_map` performs no
filesystem change for any source path — consumed maps are never moved to
the backup folder even when one is configured — and `cleanup` instead
deletes every (non-empty) resolved selection path. -/
theorem C10_delete_used_no_backup_move :
    (∀ (source_path : String) (backup_directory : Option String)
        (fs : FileSystem),
      move_used_map true source_path backup_directory fs = fs) ∧
    (∀ (context : CPContext) (fs : FileSystem) (p : String),
      p ∈ context.selection_paths_values → p ≠ "" →
      p ∉ cleanup true context fs) := by
  constructor
  · intro source_path backup_directory fs
    simp only [move_used_map]
    rw [if_pos (Or.inr trivial)]
  · intro context fs p hp hne
    simp only [cleanup]
    rw [if_neg (by simp)]
    intro hmem
    have hraw : ∀ (acc : List String) (x : String) (q : String),
        q ∈ (fun (acc : List String) (path : String) =>
          if path ∈ acc then acc.filter (fun q => q ≠ path) else acc)
          acc x → q ∈ acc := by
      intro acc x q h
      beta_reduce at h
      split_ifs at h
      · exact (List.mem_filter.mp h).1
      · exact h
    have hsel := foldl_removal_subset _ hraw context.raw_source_paths _ p hmem
    exact not_mem_selection_foldl context.selection_paths_values _ p hp hne hsel

/-- C10 witness: with `DELETE_USED`, moving `a.png` to a configured,
existing backup directory leaves the filesystem unchanged, and `cleanup`
removes `a.png` once it is a consumed selection path. -/
theorem C10_delete_used_no_backup_move_witness :
    move_used_map true "a.png" (some "backup") ["a.png", "b.png"]
      = ["a.png", "b.png"] ∧
    "a.png" ∉ cleanup true ⟨["a.png"], [], []⟩ ["a.png", "b.png"] := by
  exact ⟨C10_delete_used_no_backup_move.1 "a.png" (some "backup")
      ["a.png", "b.png"],
    C10_delete_used_no_backup_move.2 ⟨["a.png"], [], []⟩
      ["a.png", "b.png"] "a.png" (by decide) (by decide)⟩

end ChannelPacker

/-! Smoke tests for the base layer. -/

example : ChannelPacker.is_power_of_two 256 = true := by decide
example : ChannelPacker.is_power_of_two 300 = false := by decide
example : ChannelPacker.resolution_to_suffix (2048, 2048) = "2K" := by decide
example : ChannelPacker.resolution_to_suffix (10000, 16) = "10000px" := by
  decide
